import Mathlib

/-!
Shallow embedding of the cognitive-adaptive ebook feedback loop.

The definitions below are translated from the JavaScript sources of the
repository:

* in-memory data store (`dataStore.js`) and the DynamoDB data store
  (`dynamoDataStore.js`): bounded per-session event / cognitive-state logs,
  user binding;
* cognitive inference engine (`cognitiveEngine.js`): behavioral metrics,
  pattern detection, load classification, confidence;
* adaptation service (`adaptationService.js`): strategy recommendation and
  the cooldown / rate-cap filter;
* event controller (`eventController.js`) and the event-service
  (`event-service/src/index.js`): ingest and batch-ingest routes.

JavaScript numbers that only ever hold exact values are modelled with `Int`
(millisecond timestamps) and `Rat` (speeds, frequencies, durations);
`undefined`/`null` fields are modelled with `Option`; JavaScript truthiness
of strings and numbers is modelled explicitly by the `truthy`/`jsOr*`
helpers (`""`, `0`, `null` and `undefined` are falsy).
-/

/-- JavaScript truthiness of an optional string: `null`/`undefined` and the
empty string are falsy. -/
def truthy : Option String → Bool
  | none => false
  | some s => s ≠ ""

/-- JavaScript `x || d` on an optional rational, where `0` is falsy. -/
def jsOrQ (x : Option ℚ) (d : ℚ) : ℚ :=
  match x with
  | none => d
  | some v => if v = 0 then d else v

/-- JavaScript `x || d` on an optional integer (millisecond timestamp),
where `0` is falsy. -/
def jsOrInt (x : Option Int) (d : Int) : Int :=
  match x with
  | none => d
  | some v => if v = 0 then d else v

/-- JavaScript `x || d` on a rational, where `0` is falsy. -/
def jsOrQ0 (x d : ℚ) : ℚ :=
  if x = 0 then d else x

/-- JavaScript `n || m` on a natural count, where `0` is falsy. -/
def jsOrNat (n m : ℕ) : ℕ :=
  if n = 0 then m else n

/-- JavaScript `x < 0` on an optional number: `undefined < 0` is false. -/
def jsNegative : Option ℚ → Bool
  | none => false
  | some v => v < 0

/-- JavaScript `toUpperCase()`, written structurally over the character
list so that it evaluates; `jsToUpper_eq_toUpper` below shows it is exactly
`String.toUpper`. -/
def jsToUpper (s : String) : String :=
  ⟨s.data.map Char.toUpper⟩

/-- Last `n` elements of a list; this is JavaScript `slice(-n)` on an array
of length at least `n` (and the whole array otherwise). -/
def lastN (n : ℕ) (l : List α) : List α :=
  (l.reverse.take n).reverse

/-- Event metadata: the open JS map restricted to the fields the verified
code reads.  `none` models an absent (`undefined`) field. -/
structure Metadata where
  speed : Option ℚ
  idleDuration : Option ℚ
  seekDuration : Option ℚ
  currentTime : Option ℚ
  sectionId : Option String
  timestamp : Option Int
deriving DecidableEq, Repr

/-- Metadata literal with every field absent (the JS `{}` object). -/
def Metadata.empty : Metadata :=
  { speed := none, idleDuration := none, seekDuration := none,
    currentTime := none, sectionId := none, timestamp := none }

/-- A behavioral event as built by the ingestion routes. -/
structure Event where
  eventId : String
  sessionId : String
  eventType : String
  timestamp : Int
  metadata : Metadata
  userId : Option String
deriving DecidableEq, Repr

/-- Derived behavior metrics returned by `calculateBehaviorMetrics`. -/
structure Metrics where
  pauseFrequency : ℚ
  pauseCount : ℕ
  replayCount : ℕ
  avgSpeed : ℚ
  idleTime : ℚ
  navigationReversals : ℕ
  totalEvents : ℕ
  timeWindowMinutes : ℚ
deriving DecidableEq, Repr

/-- Cognitive state as returned by `inferCognitiveState`. -/
structure CognitiveState where
  sessionId : String
  cognitiveLoad : String
  patterns : List String
  confidence : ℚ
  timestamp : Int
  behaviorSummary : Metrics
deriving DecidableEq, Repr

/-- An adaptation decision, restricted to the fields read by the
cooldown / rate-cap filter (`strategy` and `timestamp`). -/
structure Adaptation where
  strategy : String
  timestamp : Int
deriving DecidableEq, Repr

/-- Per-session record held by the session stores. -/
structure Session where
  sessionId : String
  userId : Option String
  startTime : Int
  currentSection : String
  currentTime : ℚ
  playbackSpeed : ℚ
  events : List Event
  cognitiveStates : List CognitiveState
  adaptations : List Adaptation
deriving DecidableEq, Repr

namespace cognitiveEngine

/-- Behavioral event types the inference engine recognizes (the tags its
filters compare against, after upper-casing). -/
def recognizedTags : List String :=
  ["AUDIO_PAUSE", "AUDIO_REPLAY", "AUDIO_SEEK", "AUDIO_SPEED_CHANGE",
   "NAVIGATION_REVERSAL", "USER_IDLE"]

/-- Filter predicate for pause events
(`e.eventType && e.eventType.toUpperCase() === AUDIO_PAUSE`). -/
def isPause (e : Event) : Bool :=
  decide (e.eventType ≠ "" ∧ jsToUpper e.eventType = "AUDIO_PAUSE")

/-- Filter predicate for replay events: an `AUDIO_REPLAY`, or an
`AUDIO_SEEK` whose `seekDuration` metadata is negative. -/
def isReplay (e : Event) : Bool :=
  decide (e.eventType ≠ "") &&
    (decide (jsToUpper e.eventType = "AUDIO_REPLAY") ||
      (decide (jsToUpper e.eventType = "AUDIO_SEEK") && jsNegative e.metadata.seekDuration))

/-- Filter predicate for speed-change events. -/
def isSpeedChange (e : Event) : Bool :=
  decide (e.eventType ≠ "" ∧ jsToUpper e.eventType = "AUDIO_SPEED_CHANGE")

/-- Filter predicate for explicit navigation-reversal events. -/
def isNavReversal (e : Event) : Bool :=
  decide (e.eventType ≠ "" ∧ jsToUpper e.eventType = "NAVIGATION_REVERSAL")

/-- Filter predicate for idle events. -/
def isIdle (e : Event) : Bool :=
  decide (e.eventType ≠ "" ∧ jsToUpper e.eventType = "USER_IDLE")

/-- Translation of `calculateBehaviorMetrics(events)`; the source indexes
`events[0]` and `events[events.length - 1]`, so it is only called on a
non-empty window, here recorded by the hypothesis `h`. -/
def calculateBehaviorMetrics (events : List Event) (h : events ≠ []) : Metrics :=
  let totalEvents := events.length
  let timeWindow : Int := (events.getLast h).timestamp - (events.head h).timestamp
  let timeWindowMinutes : ℚ := jsOrQ0 ((timeWindow : ℚ) / 60000) 1
  let pauseEvents := events.filter isPause
  let replayEvents := events.filter isReplay
  let speedEvents := events.filter isSpeedChange
  let navReversals := events.filter isNavReversal
  let idleEvents := events.filter isIdle
  let avgSpeed : ℚ :=
    if 0 < speedEvents.length then
      (speedEvents.foldl (fun sum e => sum + jsOrQ e.metadata.speed 1) 0) /
        (speedEvents.length : ℚ)
    else 1
  let totalIdleTime : ℚ :=
    idleEvents.foldl (fun sum e => sum + jsOrQ e.metadata.idleDuration 0) 0
  { pauseFrequency := (pauseEvents.length : ℚ) / timeWindowMinutes
    pauseCount := pauseEvents.length
    replayCount := replayEvents.length
    avgSpeed := avgSpeed
    idleTime := totalIdleTime
    navigationReversals := jsOrNat navReversals.length replayEvents.length
    totalEvents := totalEvents
    timeWindowMinutes := timeWindowMinutes }

/-- Translation of `detectBehavioralPatterns(metrics, events)`; the `events`
parameter of the source is never read in its body and is omitted.  The tags
are pushed in source order. -/
def detectBehavioralPatterns (metrics : Metrics) : List String :=
  (if 1 ≤ metrics.navigationReversals ∧ 1 ≤ metrics.replayCount then ["confusion"] else []) ++
  (if 3 < metrics.pauseFrequency ∧ metrics.avgSpeed < 9/10 ∧ 1 ≤ metrics.replayCount then
    ["overload"] else []) ++
  (if 30000 < metrics.idleTime ∧ metrics.avgSpeed < 85/100 then ["fatigue"] else []) ++
  (if 3 ≤ metrics.navigationReversals then ["navigation_difficulty"] else []) ++
  (if metrics.pauseFrequency < 1 ∧ 9/10 ≤ metrics.avgSpeed ∧ metrics.navigationReversals = 0 then
    ["engagement"] else []) ++
  (if 6 < metrics.pauseFrequency then ["struggle"] else []) ++
  (if 2 ≤ metrics.replayCount then ["repetition_spike"] else [])

/-- Translation of `inferCognitiveLoad(patterns, metrics)`. -/
def inferCognitiveLoad (patterns : List String) (metrics : Metrics) : String :=
  if "overload" ∈ patterns ∨ "struggle" ∈ patterns ∨
      ("confusion" ∈ patterns ∧ "fatigue" ∈ patterns) then "high"
  else if "confusion" ∈ patterns ∨ "fatigue" ∈ patterns ∨
      "navigation_difficulty" ∈ patterns ∨ "repetition_spike" ∈ patterns ∨
      2 < metrics.pauseFrequency then "medium"
  else "low"

/-- Translation of `calculateConfidence(eventCount, patterns)`. -/
def calculateConfidence (eventCount : ℕ) (patterns : List String) : ℚ :=
  let confidence := min ((eventCount : ℚ) / 20) (4/5)
  let confidence := if 0 < patterns.length then confidence + 1/10 else confidence
  let confidence := if 2 ≤ patterns.length then confidence + 1/10 else confidence
  min confidence 1

/-- Translation of `inferCognitiveState(events, sessionId)`; `Date.now()` is
passed in as `now`.  The empty-window object of the source omits the
`pauseCount`, `totalEvents` and `timeWindowMinutes` fields; reading them in
JS yields `undefined`, which every consumer coerces to `0`
(`behaviorSummary?.pauseCount || 0`), so they are modelled as `0` here. -/
def inferCognitiveState (events : List Event) (sessionId : String) (now : Int) :
    CognitiveState :=
  if h : events = [] then
    { sessionId := sessionId
      cognitiveLoad := "low"
      patterns := []
      confidence := 1/2
      timestamp := now
      behaviorSummary :=
        { pauseFrequency := 0, pauseCount := 0, replayCount := 0, avgSpeed := 1,
          idleTime := 0, navigationReversals := 0, totalEvents := 0,
          timeWindowMinutes := 0 } }
  else
    let metrics := calculateBehaviorMetrics events h
    let patterns := detectBehavioralPatterns metrics
    let cognitiveLoad := inferCognitiveLoad patterns metrics
    let confidence := calculateConfidence events.length patterns
    { sessionId := sessionId
      cognitiveLoad := cognitiveLoad
      patterns := patterns
      confidence := confidence
      timestamp := now
      behaviorSummary := metrics }

end cognitiveEngine

namespace dataStore

/-- Translation of the in-memory `getSession(sessionId, userId)` on an
existing session record: bind the user when a truthy `userId` is supplied
and none is bound yet (`if (userId && !session.userId)`).  The map lookup
by `sessionId` is abstracted away: all store operations are per-session. -/
def getSession (s : Session) (userId : Option String) : Session :=
  if truthy userId && !truthy s.userId then { s with userId := userId } else s

/-- Session record created by `getSession` for a first-seen session id. -/
def newSession (sessionId : String) (userId : Option String) (now : Int) : Session :=
  { sessionId := sessionId, userId := userId, startTime := now,
    currentSection := "intro", currentTime := 0, playbackSpeed := 1,
    events := [], cognitiveStates := [], adaptations := [] }

/-- Translation of the in-memory `addEvent(sessionId, event)`: fetch the
session passing `event.userId`, push, and keep only the last 100 events. -/
def addEvent (s : Session) (event : Event) : Session :=
  let s := getSession s event.userId
  let events := s.events ++ [event]
  { s with events := if 100 < events.length then lastN 100 events else events }

/-- Translation of the in-memory `updateCognitiveState(sessionId, state)`:
push and keep only the last 20 states. -/
def updateCognitiveState (s : Session) (cognitiveState : CognitiveState) : Session :=
  let states := s.cognitiveStates ++ [cognitiveState]
  { s with cognitiveStates := if 20 < states.length then lastN 20 states else states }

/-- Translation of the in-memory `updateSessionContext(sessionId, context)`;
the opportunistic `saveUserProgress` write goes to a separate user-progress
map and does not touch the session record. -/
def updateSessionContext (s : Session) (currentTime : Option ℚ)
    (playbackSpeed : Option ℚ) (currentSection : Option String) : Session :=
  let s := match currentTime with | some v => { s with currentTime := v } | none => s
  let s := match playbackSpeed with | some v => { s with playbackSpeed := v } | none => s
  match currentSection with | some v => { s with currentSection := v } | none => s

end dataStore

namespace dynamoStore

/-- Translation of the DynamoDB `updateSessionUser(sessionId, userId)`: an
unguarded `SET userId = :u`. -/
def updateSessionUser (s : Session) (userId : Option String) : Session :=
  { s with userId := userId }

/-- Translation of the DynamoDB `addEvent(sessionId, event)`: when the event
carries a truthy `userId` the store fires an unawaited `updateSessionUser`
(modelled as applied), then does a read-modify-write push keeping the last
100 events. -/
def addEvent (s : Session) (event : Event) : Session :=
  let s := if truthy event.userId then updateSessionUser s event.userId else s
  let events := s.events ++ [event]
  { s with events := if 100 < events.length then lastN 100 events else events }

/-- Translation of the DynamoDB `updateCognitiveState(sessionId, state)`:
push and keep only the last 20 states. -/
def updateCognitiveState (s : Session) (cognitiveState : CognitiveState) : Session :=
  let states := s.cognitiveStates ++ [cognitiveState]
  { s with cognitiveStates := if 20 < states.length then lastN 20 states else states }

end dynamoStore

/-- A mutation of a session's bounded logs: an ingested event or an appended
cognitive state (in-memory store). -/
inductive StoreOp where
  | addEvent : Event → StoreOp
  | updateCognitiveState : CognitiveState → StoreOp
deriving DecidableEq

/-- Apply one store operation to a session. -/
def applyOp (s : Session) : StoreOp → Session
  | .addEvent e => dataStore.addEvent s e
  | .updateCognitiveState c => dataStore.updateCognitiveState s c

/-- Apply a sequence of store operations in order. -/
def runOps (s : Session) (ops : List StoreOp) : Session :=
  ops.foldl applyOp s

/-- Events appended by a sequence of store operations, in order. -/
def eventsOf (ops : List StoreOp) : List Event :=
  ops.filterMap fun op => match op with | .addEvent e => some e | _ => none

/-- Cognitive states appended by a sequence of store operations, in order. -/
def statesOf (ops : List StoreOp) : List CognitiveState :=
  ops.filterMap fun op => match op with | .updateCognitiveState c => some c | _ => none

/-- A session whose user identity is already bound to `alice`. -/
def aliceSession : Session :=
  { sessionId := "s1", userId := some "alice", startTime := 0,
    currentSection := "intro", currentTime := 0, playbackSpeed := 1,
    events := [], cognitiveStates := [], adaptations := [] }

/-- An ingested event carrying a different user identity `bob`. -/
def bobEvent : Event :=
  { eventId := "e1", sessionId := "s1", eventType := "AUDIO_PAUSE",
    timestamp := 1, metadata := Metadata.empty, userId := some "bob" }

/-- Order-preserving deduplication, keeping the first occurrence of each
element: the JavaScript idiom spelled open-bracket dot-dot-dot new Set of
recommendations close-bracket.  `seen` accumulates elements already kept. -/
def jsSetDedupAux (seen : List String) : List String → List String
  | [] => []
  | x :: xs => if x ∈ seen then jsSetDedupAux seen xs else x :: jsSetDedupAux (x :: seen) xs

/-- Order-preserving deduplication keeping first occurrences. -/
def jsSetDedup (l : List String) : List String :=
  jsSetDedupAux [] l

namespace adaptationService

/-- Translation of the adaptation-service `recommendAdaptations`:
`pauseCount` stands for `cognitiveState.behaviorSummary?.pauseCount || 0`
(the optional-chaining read, `0` when the summary omits the field).  The
strategy pushes happen in source order and the result is deduplicated
keeping first occurrences. -/
def recommendAdaptations (cognitiveState : CognitiveState) : List String :=
  let patterns := cognitiveState.patterns
  let pauseCount := cognitiveState.behaviorSummary.pauseCount
  let recommendations :=
    (if cognitiveState.cognitiveLoad = "high" then
      ["SMART_PAUSE"] ++
      (if 2 ≤ pauseCount ∨ "overload" ∈ patterns ∨ "struggle" ∈ patterns then
        ["SLOW_NARRATION"] else []) ++
      (if "overload" ∈ patterns ∨ "struggle" ∈ patterns then ["SMART_PAUSE"] else []) ++
      (if "confusion" ∈ patterns ∨ "repetition_spike" ∈ patterns then
        ["AUTO_REPEAT", "SUMMARY_INJECTION"] else [])
    else []) ++
    (if cognitiveState.cognitiveLoad = "medium" then
      (if 3 ≤ pauseCount ∨ "fatigue" ∈ patterns then ["SLOW_NARRATION"] else []) ++
      (if "confusion" ∈ patterns then ["AUTO_REPEAT"] else []) ++
      (if "navigation_difficulty" ∈ patterns ∨ "repetition_spike" ∈ patterns then
        ["SIMPLIFY_INTERACTION", "SUMMARY_INJECTION"] else [])
    else [])
  jsSetDedup recommendations

/-- Translation of the adaptation-service `shouldApplyAdaptation`:
per-strategy cooldown of 5000 ms, then a global cap of 20 adaptations in the
trailing 60000 ms; `Date.now()` is passed in as `now`. -/
def shouldApplyAdaptation (now : Int) (recentAdaptations : List Adaptation)
    (strategy : String) : Bool :=
  let recentSameStrategy := recentAdaptations.filter fun a =>
    decide (a.strategy = strategy ∧ now - a.timestamp < 5000)
  if 0 < recentSameStrategy.length then false
  else
    let veryRecentAdaptations := recentAdaptations.filter fun a =>
      decide (now - a.timestamp < 60000)
    if 20 ≤ veryRecentAdaptations.length then false
    else true

end adaptationService

namespace monolithAdaptation

/-- Translation of the monolith `shouldApplyAdaptation` (`part_008`): same
shape with a 60000 ms per-strategy cooldown and a cap of 3 per trailing
60000 ms.  The spec treats the differing constants as configuration. -/
def shouldApplyAdaptation (now : Int) (recentAdaptations : List Adaptation)
    (strategy : String) : Bool :=
  let recentSameStrategy := recentAdaptations.filter fun a =>
    decide (a.strategy = strategy ∧ now - a.timestamp < 60000)
  if 0 < recentSameStrategy.length then false
  else
    let veryRecentAdaptations := recentAdaptations.filter fun a =>
      decide (now - a.timestamp < 60000)
    if 3 ≤ veryRecentAdaptations.length then false
    else true

end monolithAdaptation

namespace cognitiveEngine

/-- Translation of the cognitive-engine `recommendAdaptations` (the second,
in-process copy of the decision logic). -/
def recommendAdaptations (cognitiveState : CognitiveState) : List String :=
  let patterns := cognitiveState.patterns
  let recommendations :=
    (if cognitiveState.cognitiveLoad = "high" then
      ["SLOW_NARRATION", "SMART_PAUSE"] ++
      (if "overload" ∈ patterns then ["SLOW_NARRATION"] else []) ++
      (if "confusion" ∈ patterns then ["AUTO_REPEAT", "SUMMARY_INJECTION"] else [])
    else []) ++
    (if cognitiveState.cognitiveLoad = "medium" then
      ["SLOW_NARRATION"] ++
      (if "fatigue" ∈ patterns then ["SLOW_NARRATION"] else []) ++
      (if "confusion" ∈ patterns then ["AUTO_REPEAT"] else []) ++
      (if "navigation_difficulty" ∈ patterns then ["SIMPLIFY_INTERACTION"] else [])
    else [])
  jsSetDedup recommendations

end cognitiveEngine

/-- A pause event at millisecond 0. -/
def pauseEvent0 : Event :=
  { eventId := "p", sessionId := "s1", eventType := "AUDIO_PAUSE",
    timestamp := 0, metadata := Metadata.empty, userId := none }

/-- A window of 7 pause events with identical timestamps: its only signal is
the pause frequency of 7 per minute. -/
def pauseWindow7 : List Event :=
  [pauseEvent0, pauseEvent0, pauseEvent0, pauseEvent0, pauseEvent0,
    pauseEvent0, pauseEvent0]

/-- Metrics of `pauseWindow7`. -/
def metricsWindow7 : Metrics :=
  { pauseFrequency := 7, pauseCount := 7, replayCount := 0, avgSpeed := 1,
    idleTime := 0, navigationReversals := 0, totalEvents := 7,
    timeWindowMinutes := 1 }

/-- A play event at millisecond 0 (no behavioral signal). -/
def playEvent0 : Event :=
  { eventId := "g", sessionId := "s1", eventType := "AUDIO_PLAY",
    timestamp := 0, metadata := Metadata.empty, userId := none }

/-- A one-event window that triggers the `engagement` pattern. -/
def engagementWindow : List Event := [playEvent0]

/-- Metrics of `engagementWindow`. -/
def metricsEngagement : Metrics :=
  { pauseFrequency := 0, pauseCount := 0, replayCount := 0, avgSpeed := 1,
    idleTime := 0, navigationReversals := 0, totalEvents := 1,
    timeWindowMinutes := 1 }

/-- A play event at millisecond 30000, closing a window that spans half a
minute. -/
def playEvent30000 : Event :=
  { eventId := "q", sessionId := "s1", eventType := "AUDIO_PLAY",
    timestamp := 30000, metadata := Metadata.empty, userId := none }

/-- A two-event window spanning 30 seconds and holding one pause event. -/
def halfMinuteWindow : List Event := [pauseEvent0, playEvent30000]

/-- Metrics of `halfMinuteWindow`: the window spans half a minute, so a
single pause yields a pause frequency of 2 per minute. -/
def metricsHalfMinute : Metrics :=
  { pauseFrequency := 2, pauseCount := 1, replayCount := 0, avgSpeed := 1,
    idleTime := 0, navigationReversals := 0, totalEvents := 2,
    timeWindowMinutes := 1/2 }

/-- An element of the body of a batch-ingest request. -/
structure RawEvent where
  eventType : String
  timestamp : Option Int
  metadata : Option Metadata
deriving DecidableEq, Repr

/-- Outcome of the ingest route: a 400 rejection (session untouched), a 500
failure after the event was already stored (the route dereferences the raw
`metadata` after `addEvent`, so an absent metadata object throws then), or
success. -/
inductive IngestOutcome where
  | rejected : String → Session → IngestOutcome
  | failed : Session → Event → IngestOutcome
  | ok : Session → Event → IngestOutcome
deriving DecidableEq

/-- True exactly on the 400 `Missing required fields` rejection. -/
def IngestOutcome.isRejected : IngestOutcome → Bool
  | .rejected _ _ => true
  | _ => false

/-- The session record after the route ran. -/
def IngestOutcome.session : IngestOutcome → Session
  | .rejected _ s => s
  | .failed s _ => s
  | .ok s _ => s

namespace eventController

/-- Translation of the monolith `POST /ingest` route: validate presence of
`sessionId` and `eventType` only, build the event with a fresh id and the
server clock, store it, then issue a context update when the metadata
carries `currentTime`, `speed` or `sectionId`.  The asynchronous
`processEvent` call is fire-and-forget and does not touch the stored
session here. -/
def ingest (sessionId : Option String) (eventType : Option String)
    (metadata : Option Metadata) (session : Session) (eventId : String)
    (now : Int) : IngestOutcome :=
  if !truthy sessionId || !truthy eventType then
    .rejected "Missing required fields: sessionId, eventType" session
  else
    let event : Event :=
      { eventId := eventId, sessionId := sessionId.getD "",
        eventType := eventType.getD "", timestamp := now,
        metadata := metadata.getD Metadata.empty, userId := none }
    let session1 := dataStore.addEvent session event
    match metadata with
    | none => .failed session1 event
    | some md =>
      let session2 :=
        if md.currentTime ≠ none ∨ md.speed ≠ none ∨ md.sectionId ≠ none then
          dataStore.updateSessionContext session1 md.currentTime md.speed md.sectionId
        else session1
      .ok session2 event

/-- Event object built for one element of a batch: fresh id, the
client-supplied top-level timestamp when truthy, else the server clock. -/
def mkBatchEvent (sessionId : String) (eventId : String) (now : Int)
    (e : RawEvent) : Event :=
  { eventId := eventId, sessionId := sessionId, eventType := e.eventType,
    timestamp := jsOrInt e.timestamp now,
    metadata := e.metadata.getD Metadata.empty, userId := none }

/-- Translation of the monolith `POST /batch` route on a valid request: map
over the batch building and storing each event in input order (the JS `map`
stores each element as a side effect; event construction does not read the
store, so this equals the fold), then hand exactly the last processed event
to `processEvent`.  Returns the session, the processed events, and the list
of events handed to `processEvent`. -/
def batch (sessionId : String) (events : List RawEvent) (ids : ℕ → String)
    (now : Int) (session : Session) : Session × List Event × List Event :=
  let processedEvents := events.enum.map fun p => mkBatchEvent sessionId (ids p.1) now p.2
  let session := processedEvents.foldl dataStore.addEvent session
  let inference :=
    match processedEvents.getLast? with
    | some e => [e]
    | none => []
  (session, processedEvents, inference)

end eventController

namespace eventService

/-- Event object built for one element of a batch by the event-service:
the timestamp is read from `metadata?.timestamp`. -/
def mkBatchEvent (sessionId : String) (eventId : String) (now : Int)
    (e : RawEvent) : Event :=
  { eventId := eventId, sessionId := sessionId, eventType := e.eventType,
    timestamp := jsOrInt (e.metadata.bind Metadata.timestamp) now,
    metadata := e.metadata.getD Metadata.empty, userId := none }

/-- Translation of the event-service `POST /batch` route on a valid
request: for each element, build the event, store it through the
data-service, and trigger `processEvent` on that event — one inference pass
per batch element. -/
def batch (sessionId : String) (events : List RawEvent) (ids : ℕ → String)
    (now : Int) (session : Session) : Session × List Event × List Event :=
  let processedEvents := events.enum.map fun p => mkBatchEvent sessionId (ids p.1) now p.2
  let session := processedEvents.foldl dataStore.addEvent session
  (session, processedEvents, processedEvents)

end eventService

/-- A raw pause event for a batch request. -/
def rawA : RawEvent := { eventType := "AUDIO_PAUSE", timestamp := none, metadata := none }

/-- A raw play event for a batch request. -/
def rawB : RawEvent := { eventType := "AUDIO_PLAY", timestamp := none, metadata := none }

/-- A concrete two-event batch. -/
def batch2 : List RawEvent := [rawA, rawB]

/-- Outcome of ingesting a well-formed request whose `eventType` is the
unrecognized non-empty string `BOGUS_EVENT`. -/
def bogusOutcome : IngestOutcome :=
  eventController.ingest (some "s1") (some "BOGUS_EVENT") (some Metadata.empty)
    (dataStore.newSession "s1" none 0) "e1" 5

/-- C3: for the empty event window, `inferCognitiveState` returns exactly
cognitive load `low`, no patterns, confidence `0.5`, and the zeroed behavior
summary (`pauseFrequency 0`, `replayCount 0`, `avgSpeed 1.0`, `idleTime 0`,
`navigationReversals 0`), for every session id and clock value. -/
theorem inferCognitiveState_empty_window (sessionId : String) (now : Int) :
    (cognitiveEngine.inferCognitiveState [] sessionId now).cognitiveLoad = "low" ∧
    (cognitiveEngine.inferCognitiveState [] sessionId now).patterns = [] ∧
    (cognitiveEngine.inferCognitiveState [] sessionId now).confidence = 1/2 ∧
    (cognitiveEngine.inferCognitiveState [] sessionId now).behaviorSummary.pauseFrequency = 0 ∧
    (cognitiveEngine.inferCognitiveState [] sessionId now).behaviorSummary.replayCount = 0 ∧
    (cognitiveEngine.inferCognitiveState [] sessionId now).behaviorSummary.avgSpeed = 1 ∧
    (cognitiveEngine.inferCognitiveState [] sessionId now).behaviorSummary.idleTime = 0 ∧
    (cognitiveEngine.inferCognitiveState [] sessionId now).behaviorSummary.navigationReversals = 0 :=
  ⟨rfl, rfl, rfl, rfl, rfl, rfl, rfl, rfl⟩

theorem length_lastN_le (n : ℕ) (l : List α) : (lastN n l).length ≤ n := by
  simp [lastN]

theorem lastN_of_le {n : ℕ} {l : List α} (h : l.length ≤ n) : lastN n l = l := by
  rw [lastN, List.take_of_length_le (by simpa using h), List.reverse_reverse]

theorem lastN_suffix (n : ℕ) (l : List α) : lastN n l <:+ l := by
  rw [← List.reverse_prefix]
  simpa [lastN] using List.take_prefix n l.reverse

theorem lastN_append (n : ℕ) (X B : List α) :
    lastN n (lastN n X ++ B) = lastN n (X ++ B) := by
  simp only [lastN, List.reverse_append, List.reverse_reverse]
  congr 1
  rw [List.take_append_eq_append_take, List.take_append_eq_append_take, List.take_take,
    min_eq_left (Nat.sub_le _ _)]

theorem getSession_events (s : Session) (u : Option String) :
    (dataStore.getSession s u).events = s.events := by
  simp only [dataStore.getSession]
  split <;> rfl

theorem getSession_cognitiveStates (s : Session) (u : Option String) :
    (dataStore.getSession s u).cognitiveStates = s.cognitiveStates := by
  simp only [dataStore.getSession]
  split <;> rfl

theorem addEvent_events (s : Session) (e : Event) :
    (dataStore.addEvent s e).events = lastN 100 (s.events ++ [e]) := by
  simp only [dataStore.addEvent, getSession_events]
  split
  · rfl
  · exact (lastN_of_le (by omega)).symm

theorem addEvent_cognitiveStates (s : Session) (e : Event) :
    (dataStore.addEvent s e).cognitiveStates = s.cognitiveStates := by
  simp only [dataStore.addEvent, getSession_cognitiveStates]

theorem updateCognitiveState_states (s : Session) (c : CognitiveState) :
    (dataStore.updateCognitiveState s c).cognitiveStates =
      lastN 20 (s.cognitiveStates ++ [c]) := by
  simp only [dataStore.updateCognitiveState]
  split
  · rfl
  · exact (lastN_of_le (by omega)).symm

theorem updateCognitiveState_events (s : Session) (c : CognitiveState) :
    (dataStore.updateCognitiveState s c).events = s.events := by
  simp only [dataStore.updateCognitiveState]

theorem runOps_logs (ops : List StoreOp) : ∀ s : Session,
    s.events.length ≤ 100 → s.cognitiveStates.length ≤ 20 →
    (runOps s ops).events = lastN 100 (s.events ++ eventsOf ops) ∧
    (runOps s ops).cognitiveStates = lastN 20 (s.cognitiveStates ++ statesOf ops) := by
  induction ops with
  | nil =>
    intro s h1 h2
    simp only [runOps, List.foldl_nil, eventsOf, statesOf, List.filterMap_nil,
      List.append_nil]
    exact ⟨(lastN_of_le h1).symm, (lastN_of_le h2).symm⟩
  | cons op ops ih =>
    intro s h1 h2
    have hrun : runOps s (op :: ops) = runOps (applyOp s op) ops := rfl
    cases op with
    | addEvent e =>
      obtain ⟨ihe, ihs⟩ := ih (applyOp s (.addEvent e))
        (by show (dataStore.addEvent s e).events.length ≤ 100
            rw [addEvent_events]; exact length_lastN_le _ _)
        (by show (dataStore.addEvent s e).cognitiveStates.length ≤ 20
            rw [addEvent_cognitiveStates]; exact h2)
      refine ⟨?_, ?_⟩
      · rw [hrun, ihe]
        show lastN 100 ((dataStore.addEvent s e).events ++ eventsOf ops) = _
        rw [addEvent_events, lastN_append]
        simp [eventsOf]
      · rw [hrun, ihs]
        show lastN 20 ((dataStore.addEvent s e).cognitiveStates ++ statesOf ops) = _
        rw [addEvent_cognitiveStates]
        simp [statesOf]
    | updateCognitiveState c =>
      obtain ⟨ihe, ihs⟩ := ih (applyOp s (.updateCognitiveState c))
        (by show (dataStore.updateCognitiveState s c).events.length ≤ 100
            rw [updateCognitiveState_events]; exact h1)
        (by show (dataStore.updateCognitiveState s c).cognitiveStates.length ≤ 20
            rw [updateCognitiveState_states]; exact length_lastN_le _ _)
      refine ⟨?_, ?_⟩
      · rw [hrun, ihe]
        show lastN 100 ((dataStore.updateCognitiveState s c).events ++ eventsOf ops) = _
        rw [updateCognitiveState_events]
        simp [eventsOf]
      · rw [hrun, ihs]
        show lastN 20 ((dataStore.updateCognitiveState s c).cognitiveStates ++ statesOf ops) = _
        rw [updateCognitiveState_states, lastN_append]
        simp [statesOf]

/-- C1: starting from a fresh session, after any sequence of ingested events
and appended cognitive states the event log is exactly the last 100 events
appended (so its length never exceeds 100) and the cognitive-state log is
exactly the last 20 states appended (so its length never exceeds 20); both
logs are in-order suffixes of everything appended to them, i.e. eviction
drops the oldest entries first. -/
theorem eventLog_cognitiveLog_bounded (sid : String) (uid : Option String)
    (t : Int) (ops : List StoreOp) :
    (runOps (dataStore.newSession sid uid t) ops).events = lastN 100 (eventsOf ops) ∧
    (runOps (dataStore.newSession sid uid t) ops).cognitiveStates = lastN 20 (statesOf ops) ∧
    (runOps (dataStore.newSession sid uid t) ops).events.length ≤ 100 ∧
    (runOps (dataStore.newSession sid uid t) ops).cognitiveStates.length ≤ 20 ∧
    (runOps (dataStore.newSession sid uid t) ops).events <:+ eventsOf ops ∧
    (runOps (dataStore.newSession sid uid t) ops).cognitiveStates <:+ statesOf ops := by
  obtain ⟨he, hs⟩ := runOps_logs ops (dataStore.newSession sid uid t)
    (by simp [dataStore.newSession]) (by simp [dataStore.newSession])
  have he' : (runOps (dataStore.newSession sid uid t) ops).events = lastN 100 (eventsOf ops) := by
    simpa [dataStore.newSession] using he
  have hs' : (runOps (dataStore.newSession sid uid t) ops).cognitiveStates =
      lastN 20 (statesOf ops) := by
    simpa [dataStore.newSession] using hs
  refine ⟨he', hs', ?_, ?_, ?_, ?_⟩
  · rw [he']; exact length_lastN_le _ _
  · rw [hs']; exact length_lastN_le _ _
  · rw [he']; exact lastN_suffix _ _
  · rw [hs']; exact lastN_suffix _ _

/-- C2 (failing input for the DynamoDB store): with `alice` already bound,
appending an event that carries userId `bob` leaves the binding unchanged in
the in-memory store (guarded bind), but the DynamoDB store's `addEvent`
issues an unguarded `updateSessionUser` and silently overwrites the bound
identity with `bob` — contradicting the bind-at-most-once invariant that
the guarded `getSession` of the same file implements. -/
theorem dynamo_addEvent_overwrites_userId :
    aliceSession.userId = some "alice" ∧
    (dataStore.addEvent aliceSession bobEvent).userId = some "alice" ∧
    (dynamoStore.addEvent aliceSession bobEvent).userId = some "bob" := by
  refine ⟨rfl, ?_, ?_⟩ <;> decide

theorem mem_jsSetDedupAux (a : String) :
    ∀ (l seen : List String), a ∈ jsSetDedupAux seen l ↔ a ∈ l ∧ a ∉ seen := by
  intro l
  induction l with
  | nil => intro seen; simp [jsSetDedupAux]
  | cons x xs ih =>
    intro seen
    by_cases hx : x ∈ seen
    · rw [jsSetDedupAux, if_pos hx, ih]
      constructor
      · rintro ⟨h1, h2⟩
        exact ⟨List.mem_cons_of_mem _ h1, h2⟩
      · rintro ⟨h1, h2⟩
        rcases List.mem_cons.mp h1 with h | h
        · exact absurd (h ▸ hx) h2
        · exact ⟨h, h2⟩
    · rw [jsSetDedupAux, if_neg hx]
      by_cases hax : a = x
      · subst hax
        simp [hx]
      · rw [List.mem_cons, or_iff_right hax, ih, List.mem_cons, or_iff_right hax,
          List.mem_cons]
        tauto

theorem mem_jsSetDedup (a : String) (l : List String) :
    a ∈ jsSetDedup l ↔ a ∈ l := by
  rw [jsSetDedup, mem_jsSetDedupAux]
  simp

/-- C5: every cognitive state classified as high load is recommended
`SMART_PAUSE`, whatever its patterns and behavior summary — both by the
adaptation-service copy and by the cognitive-engine copy of the
recommendation rules (neither reads adaptation history). -/
theorem recommend_high_includes_smartPause (cognitiveState : CognitiveState)
    (h : cognitiveState.cognitiveLoad = "high") :
    "SMART_PAUSE" ∈ adaptationService.recommendAdaptations cognitiveState ∧
    "SMART_PAUSE" ∈ cognitiveEngine.recommendAdaptations cognitiveState := by
  constructor
  · rw [adaptationService.recommendAdaptations, mem_jsSetDedup]
    simp [h]
  · rw [cognitiveEngine.recommendAdaptations, mem_jsSetDedup]
    simp [h]

/-- Witness for C5 at a concrete high-load cognitive state. -/
theorem recommend_high_includes_smartPause_witness :
    "SMART_PAUSE" ∈ adaptationService.recommendAdaptations
      { sessionId := "s1", cognitiveLoad := "high", patterns := ["struggle"],
        confidence := 1, timestamp := 0,
        behaviorSummary :=
          { pauseFrequency := 7, pauseCount := 7, replayCount := 0, avgSpeed := 1,
            idleTime := 0, navigationReversals := 0, totalEvents := 7,
            timeWindowMinutes := 1 } } :=
  (recommend_high_includes_smartPause _ rfl).1

/-- C6: the adaptation filter rejects a strategy exactly when the same
strategy occurs in the recent history within the last 5 seconds, or at
least 20 adaptations of any strategy lie within the trailing 60 seconds;
hence after 20 adaptations inside a minute, any 21st recommendation is
rejected regardless of its strategy or cooldown state. -/
theorem shouldApplyAdaptation_reject_iff (now : Int)
    (recentAdaptations : List Adaptation) (strategy : String) :
    adaptationService.shouldApplyAdaptation now recentAdaptations strategy = false ↔
      (∃ a ∈ recentAdaptations, a.strategy = strategy ∧ now - a.timestamp < 5000) ∨
      20 ≤ recentAdaptations.countP fun a => decide (now - a.timestamp < 60000) := by
  rw [adaptationService.shouldApplyAdaptation]
  by_cases h1 : 0 < (recentAdaptations.filter fun a =>
      decide (a.strategy = strategy ∧ now - a.timestamp < 5000)).length
  · rw [if_pos h1]
    rw [List.length_pos, Ne, List.filter_eq_nil_iff] at h1
    push_neg at h1
    obtain ⟨a, ha, hp⟩ := h1
    simp only [decide_eq_true_eq] at hp
    simp only [true_iff, eq_self_iff_true]
    exact Or.inl ⟨a, ha, hp⟩
  · rw [if_neg h1]
    rw [List.length_pos, Ne, List.filter_eq_nil_iff] at h1
    push_neg at h1
    by_cases h2 : 20 ≤ (recentAdaptations.filter fun a =>
        decide (now - a.timestamp < 60000)).length
    · rw [if_pos h2, List.countP_eq_length_filter]
      simp only [true_iff, eq_self_iff_true]
      exact Or.inr h2
    · rw [if_neg h2, List.countP_eq_length_filter]
      constructor
      · intro hfalse
        exact absurd hfalse (by simp)
      · rintro (⟨a, ha, hs, ht⟩ | hcap)
        · have := h1 a ha
          simp only [ne_eq, decide_eq_true_eq] at this
          exact absurd ⟨hs, ht⟩ this
        · exact absurd hcap h2

theorem calc_pauseCount (events : List Event) (h : events ≠ []) :
    (cognitiveEngine.calculateBehaviorMetrics events h).pauseCount =
      (events.filter cognitiveEngine.isPause).length := rfl

theorem calc_replayCount (events : List Event) (h : events ≠ []) :
    (cognitiveEngine.calculateBehaviorMetrics events h).replayCount =
      (events.filter cognitiveEngine.isReplay).length := rfl

theorem calc_navigationReversals (events : List Event) (h : events ≠ []) :
    (cognitiveEngine.calculateBehaviorMetrics events h).navigationReversals =
      jsOrNat (events.filter cognitiveEngine.isNavReversal).length
        (events.filter cognitiveEngine.isReplay).length := rfl

theorem calc_pauseFrequency (events : List Event) (h : events ≠ []) :
    (cognitiveEngine.calculateBehaviorMetrics events h).pauseFrequency =
      ((events.filter cognitiveEngine.isPause).length : ℚ) /
        jsOrQ0 ((((events.getLast h).timestamp - (events.head h).timestamp : Int) : ℚ) / 60000)
          1 := rfl

theorem infer_patterns (events : List Event) (h : events ≠ []) (sid : String) (now : Int) :
    (cognitiveEngine.inferCognitiveState events sid now).patterns =
      cognitiveEngine.detectBehavioralPatterns
        (cognitiveEngine.calculateBehaviorMetrics events h) := by
  unfold cognitiveEngine.inferCognitiveState
  rw [dif_neg h]

theorem infer_load (events : List Event) (h : events ≠ []) (sid : String) (now : Int) :
    (cognitiveEngine.inferCognitiveState events sid now).cognitiveLoad =
      cognitiveEngine.inferCognitiveLoad
        (cognitiveEngine.detectBehavioralPatterns
          (cognitiveEngine.calculateBehaviorMetrics events h))
        (cognitiveEngine.calculateBehaviorMetrics events h) := by
  unfold cognitiveEngine.inferCognitiveState
  rw [dif_neg h]

theorem infer_summary (events : List Event) (h : events ≠ []) (sid : String) (now : Int) :
    (cognitiveEngine.inferCognitiveState events sid now).behaviorSummary =
      cognitiveEngine.calculateBehaviorMetrics events h := by
  unfold cognitiveEngine.inferCognitiveState
  rw [dif_neg h]

theorem jsToUpper_eq_toUpper (s : String) : jsToUpper s = s.toUpper := by
  rw [jsToUpper, String.toUpper, String.map_eq]

theorem pauseWindow7_ne : pauseWindow7 ≠ [] := by simp [pauseWindow7]

theorem pauseWindow7_metrics :
    cognitiveEngine.calculateBehaviorMetrics pauseWindow7 pauseWindow7_ne =
      metricsWindow7 := by
  have hp : cognitiveEngine.isPause pauseEvent0 = true := by decide
  have hr : cognitiveEngine.isReplay pauseEvent0 = false := by decide
  have hs : cognitiveEngine.isSpeedChange pauseEvent0 = false := by decide
  have hn : cognitiveEngine.isNavReversal pauseEvent0 = false := by decide
  have hi : cognitiveEngine.isIdle pauseEvent0 = false := by decide
  have ht : pauseEvent0.timestamp = 0 := rfl
  simp only [cognitiveEngine.calculateBehaviorMetrics, pauseWindow7, metricsWindow7,
    List.filter, hp, hr, hs, hn, hi, List.getLast, List.head, ht]
  norm_num [jsOrQ0, jsOrNat]

theorem detect_metricsWindow7 :
    cognitiveEngine.detectBehavioralPatterns metricsWindow7 = ["struggle"] := by
  norm_num [cognitiveEngine.detectBehavioralPatterns, metricsWindow7]

theorem load_metricsWindow7 :
    cognitiveEngine.inferCognitiveLoad ["struggle"] metricsWindow7 = "high" := by
  norm_num [cognitiveEngine.inferCognitiveLoad]

/-- C4: on every non-empty window the classified load is the first match in
priority order over the detected patterns and metrics of that window —
`high` when `overload` or `struggle` is present or both `confusion` and
`fatigue` are, else `medium` when `confusion`, `fatigue`,
`navigation_difficulty` or `repetition_spike` is present or the pause
frequency exceeds 2, else `low`; and on the concrete window whose only
signal is a pause frequency of 7, `struggle` is detected and the load is
`high`. -/
theorem cognitiveLoad_priority_order :
    (∀ (events : List Event) (h : events ≠ []) (sid : String) (now : Int),
      (cognitiveEngine.inferCognitiveState events sid now).cognitiveLoad =
        if "overload" ∈ (cognitiveEngine.inferCognitiveState events sid now).patterns ∨
            "struggle" ∈ (cognitiveEngine.inferCognitiveState events sid now).patterns ∨
            ("confusion" ∈ (cognitiveEngine.inferCognitiveState events sid now).patterns ∧
              "fatigue" ∈ (cognitiveEngine.inferCognitiveState events sid now).patterns) then
          "high"
        else if "confusion" ∈ (cognitiveEngine.inferCognitiveState events sid now).patterns ∨
            "fatigue" ∈ (cognitiveEngine.inferCognitiveState events sid now).patterns ∨
            "navigation_difficulty" ∈
              (cognitiveEngine.inferCognitiveState events sid now).patterns ∨
            "repetition_spike" ∈ (cognitiveEngine.inferCognitiveState events sid now).patterns ∨
            2 < (cognitiveEngine.inferCognitiveState events sid now).behaviorSummary.pauseFrequency
          then "medium"
        else "low") ∧
    ((cognitiveEngine.inferCognitiveState pauseWindow7 "s1" 0).behaviorSummary.pauseFrequency = 7 ∧
     "struggle" ∈ (cognitiveEngine.inferCognitiveState pauseWindow7 "s1" 0).patterns ∧
     (cognitiveEngine.inferCognitiveState pauseWindow7 "s1" 0).cognitiveLoad = "high") := by
  constructor
  · intro events h sid now
    simp only [infer_load events h sid now, infer_patterns events h sid now,
      infer_summary events h sid now]
    rfl
  · refine ⟨?_, ?_, ?_⟩
    · rw [infer_summary pauseWindow7 pauseWindow7_ne "s1" 0, pauseWindow7_metrics]
      rfl
    · rw [infer_patterns pauseWindow7 pauseWindow7_ne "s1" 0, pauseWindow7_metrics,
        detect_metricsWindow7]
      simp
    · rw [infer_load pauseWindow7 pauseWindow7_ne "s1" 0, pauseWindow7_metrics,
        detect_metricsWindow7, load_metricsWindow7]

/-- Witness for C4 at the concrete 7-pause window. -/
theorem cognitiveLoad_priority_order_witness :
    (cognitiveEngine.inferCognitiveState pauseWindow7 "s1" 0).cognitiveLoad =
      if "overload" ∈ (cognitiveEngine.inferCognitiveState pauseWindow7 "s1" 0).patterns ∨
          "struggle" ∈ (cognitiveEngine.inferCognitiveState pauseWindow7 "s1" 0).patterns ∨
          ("confusion" ∈ (cognitiveEngine.inferCognitiveState pauseWindow7 "s1" 0).patterns ∧
            "fatigue" ∈ (cognitiveEngine.inferCognitiveState pauseWindow7 "s1" 0).patterns) then
        "high"
      else if "confusion" ∈ (cognitiveEngine.inferCognitiveState pauseWindow7 "s1" 0).patterns ∨
          "fatigue" ∈ (cognitiveEngine.inferCognitiveState pauseWindow7 "s1" 0).patterns ∨
          "navigation_difficulty" ∈
            (cognitiveEngine.inferCognitiveState pauseWindow7 "s1" 0).patterns ∨
          "repetition_spike" ∈ (cognitiveEngine.inferCognitiveState pauseWindow7 "s1" 0).patterns ∨
          2 < (cognitiveEngine.inferCognitiveState pauseWindow7 "s1" 0).behaviorSummary.pauseFrequency
        then "medium"
      else "low" :=
  cognitiveLoad_priority_order.1 pauseWindow7 (by decide) "s1" 0

theorem mem_if_list {α : Type} (a : α) (c : Prop) [Decidable c] (l : List α) :
    (a ∈ if c then l else []) ↔ c ∧ a ∈ l := by
  split <;> simp_all

theorem engagement_mem_detect (m : Metrics) :
    "engagement" ∈ cognitiveEngine.detectBehavioralPatterns m ↔
      (m.pauseFrequency < 1 ∧ 9/10 ≤ m.avgSpeed ∧ m.navigationReversals = 0) := by
  simp [cognitiveEngine.detectBehavioralPatterns, mem_if_list]

theorem navZero_replayZero (events : List Event) (h : events ≠ [])
    (hz : (cognitiveEngine.calculateBehaviorMetrics events h).navigationReversals = 0) :
    (cognitiveEngine.calculateBehaviorMetrics events h).replayCount = 0 := by
  rw [calc_navigationReversals] at hz
  simp only [jsOrNat] at hz
  rw [calc_replayCount]
  split at hz
  · exact hz
  · simp_all

/-- C10: on every non-empty window whose detected patterns include
`engagement`, the classified load is `low`: the engagement condition forces
`navigationReversals = 0`, hence (through the replay-count fallback)
`replayCount = 0`, and with `pauseFrequency < 1` and `avgSpeed ≥ 0.9` every
high-load and medium-load trigger is falsified. -/
theorem engagement_implies_low_load (events : List Event) (h : events ≠ [])
    (sid : String) (now : Int)
    (hmem : "engagement" ∈ (cognitiveEngine.inferCognitiveState events sid now).patterns) :
    (cognitiveEngine.inferCognitiveState events sid now).cognitiveLoad = "low" := by
  rw [infer_patterns events h sid now, engagement_mem_detect] at hmem
  rw [infer_load events h sid now]
  obtain ⟨hpf, hsp, hnav⟩ := hmem
  have hrep := navZero_replayZero events h hnav
  set M := cognitiveEngine.calculateBehaviorMetrics events h with hM
  have h1 : ¬(1 ≤ M.navigationReversals ∧ 1 ≤ M.replayCount) := by
    rintro ⟨hx, _⟩; omega
  have h2 : ¬(3 < M.pauseFrequency ∧ M.avgSpeed < 9/10 ∧ 1 ≤ M.replayCount) := by
    rintro ⟨_, _, hx⟩; omega
  have h3 : ¬(30000 < M.idleTime ∧ M.avgSpeed < 85/100) := by
    rintro ⟨_, hx⟩; linarith
  have h4 : ¬(3 ≤ M.navigationReversals) := by omega
  have h5 : M.pauseFrequency < 1 ∧ 9/10 ≤ M.avgSpeed ∧ M.navigationReversals = 0 :=
    ⟨hpf, hsp, hnav⟩
  have h6 : ¬(6 < M.pauseFrequency) := by linarith
  have h7 : ¬(2 ≤ M.replayCount) := by omega
  have hdet : cognitiveEngine.detectBehavioralPatterns M = ["engagement"] := by
    unfold cognitiveEngine.detectBehavioralPatterns
    rw [if_neg h1, if_neg h2, if_neg h3, if_neg h4, if_pos h5, if_neg h6, if_neg h7]
    simp
  rw [hdet]
  have c1 : ¬("overload" ∈ (["engagement"] : List String) ∨
      "struggle" ∈ (["engagement"] : List String) ∨
      ("confusion" ∈ (["engagement"] : List String) ∧
        "fatigue" ∈ (["engagement"] : List String))) := by decide
  have c2 : ¬("confusion" ∈ (["engagement"] : List String) ∨
      "fatigue" ∈ (["engagement"] : List String) ∨
      "navigation_difficulty" ∈ (["engagement"] : List String) ∨
      "repetition_spike" ∈ (["engagement"] : List String) ∨
      2 < M.pauseFrequency) := by
    rintro (hc | hc | hc | hc | hc)
    · exact absurd hc (by decide)
    · exact absurd hc (by decide)
    · exact absurd hc (by decide)
    · exact absurd hc (by decide)
    · linarith
  unfold cognitiveEngine.inferCognitiveLoad
  rw [if_neg c1, if_neg c2]

theorem engagementWindow_ne : engagementWindow ≠ [] := by simp [engagementWindow]

theorem engagementWindow_metrics :
    cognitiveEngine.calculateBehaviorMetrics engagementWindow engagementWindow_ne =
      metricsEngagement := by
  have hp : cognitiveEngine.isPause playEvent0 = false := by decide
  have hr : cognitiveEngine.isReplay playEvent0 = false := by decide
  have hs : cognitiveEngine.isSpeedChange playEvent0 = false := by decide
  have hn : cognitiveEngine.isNavReversal playEvent0 = false := by decide
  have hi : cognitiveEngine.isIdle playEvent0 = false := by decide
  have ht : playEvent0.timestamp = 0 := rfl
  simp only [cognitiveEngine.calculateBehaviorMetrics, engagementWindow, metricsEngagement,
    List.filter, hp, hr, hs, hn, hi, List.getLast, List.head, ht]
  norm_num [jsOrQ0, jsOrNat]

theorem detect_metricsEngagement :
    cognitiveEngine.detectBehavioralPatterns metricsEngagement = ["engagement"] := by
  norm_num [cognitiveEngine.detectBehavioralPatterns, metricsEngagement]

/-- Witness for C10 at the concrete one-event engagement window. -/
theorem engagement_implies_low_load_witness :
    "engagement" ∈ (cognitiveEngine.inferCognitiveState engagementWindow "s1" 0).patterns ∧
    (cognitiveEngine.inferCognitiveState engagementWindow "s1" 0).cognitiveLoad = "low" := by
  have hmem :
      "engagement" ∈ (cognitiveEngine.inferCognitiveState engagementWindow "s1" 0).patterns := by
    rw [infer_patterns engagementWindow engagementWindow_ne "s1" 0,
      engagementWindow_metrics, detect_metricsEngagement]
    simp
  exact ⟨hmem, engagement_implies_low_load engagementWindow engagementWindow_ne "s1" 0 hmem⟩

theorem halfMinuteWindow_ne : halfMinuteWindow ≠ [] := by simp [halfMinuteWindow]

theorem halfMinuteWindow_metrics :
    cognitiveEngine.calculateBehaviorMetrics halfMinuteWindow halfMinuteWindow_ne =
      metricsHalfMinute := by
  have hp : cognitiveEngine.isPause pauseEvent0 = true := by decide
  have hr : cognitiveEngine.isReplay pauseEvent0 = false := by decide
  have hs : cognitiveEngine.isSpeedChange pauseEvent0 = false := by decide
  have hn : cognitiveEngine.isNavReversal pauseEvent0 = false := by decide
  have hi : cognitiveEngine.isIdle pauseEvent0 = false := by decide
  have hp2 : cognitiveEngine.isPause playEvent30000 = false := by decide
  have hr2 : cognitiveEngine.isReplay playEvent30000 = false := by decide
  have hs2 : cognitiveEngine.isSpeedChange playEvent30000 = false := by decide
  have hn2 : cognitiveEngine.isNavReversal playEvent30000 = false := by decide
  have hi2 : cognitiveEngine.isIdle playEvent30000 = false := by decide
  have ht : pauseEvent0.timestamp = 0 := rfl
  have ht2 : playEvent30000.timestamp = 30000 := rfl
  simp only [cognitiveEngine.calculateBehaviorMetrics, halfMinuteWindow, metricsHalfMinute,
    List.filter, hp, hr, hs, hn, hi, hp2, hr2, hs2, hn2, hi2, List.getLast, List.head,
    ht, ht2]
  norm_num [jsOrQ0, jsOrNat]

/-- C9 (counterexample): on the concrete window spanning 30000 ms (less than
one minute) with exactly one pause event, the window span in minutes is kept
at `1/2` (the JavaScript guard replaces it by 1 only when it is exactly 0),
so the pause frequency is 2 and exceeds the pause count — refuting both the
claimed clamping of the span at one minute and the claimed bound
`pauseFrequency ≤ pauseCount` for sub-minute windows. -/
theorem pauseFrequency_exceeds_pauseCount :
    (halfMinuteWindow.getLast halfMinuteWindow_ne).timestamp -
        (halfMinuteWindow.head halfMinuteWindow_ne).timestamp = 30000 ∧
    (cognitiveEngine.calculateBehaviorMetrics halfMinuteWindow
        halfMinuteWindow_ne).timeWindowMinutes = 1/2 ∧
    (cognitiveEngine.calculateBehaviorMetrics halfMinuteWindow
        halfMinuteWindow_ne).pauseCount = 1 ∧
    (cognitiveEngine.calculateBehaviorMetrics halfMinuteWindow
        halfMinuteWindow_ne).pauseFrequency = 2 ∧
    ¬((cognitiveEngine.calculateBehaviorMetrics halfMinuteWindow
          halfMinuteWindow_ne).pauseFrequency ≤
        ((cognitiveEngine.calculateBehaviorMetrics halfMinuteWindow
            halfMinuteWindow_ne).pauseCount : ℚ)) := by
  refine ⟨by decide, ?_, ?_, ?_, ?_⟩ <;>
    rw [halfMinuteWindow_metrics] <;> norm_num [metricsHalfMinute]

/-- C9 (amended): the window span `T` in minutes is replaced by 1 only when
it is exactly zero; so for a zero-span window the pause frequency equals the
pause count, and for any nonzero span it is `pauseCount * 60000 / span`
(span in ms), which for sub-minute spans can exceed the pause count. -/
theorem pauseFrequency_formula (events : List Event) (h : events ≠ []) :
    ((events.getLast h).timestamp - (events.head h).timestamp = 0 →
      (cognitiveEngine.calculateBehaviorMetrics events h).pauseFrequency =
        ((cognitiveEngine.calculateBehaviorMetrics events h).pauseCount : ℚ)) ∧
    ((events.getLast h).timestamp - (events.head h).timestamp ≠ 0 →
      (cognitiveEngine.calculateBehaviorMetrics events h).pauseFrequency =
        ((cognitiveEngine.calculateBehaviorMetrics events h).pauseCount : ℚ) * 60000 /
          (((events.getLast h).timestamp - (events.head h).timestamp : Int) : ℚ)) := by
  constructor
  · intro hz
    rw [calc_pauseFrequency, calc_pauseCount, hz]
    norm_num [jsOrQ0]
  · intro hnz
    have hq : (((events.getLast h).timestamp - (events.head h).timestamp : Int) : ℚ) ≠ 0 := by
      exact_mod_cast hnz
    rw [calc_pauseFrequency, calc_pauseCount]
    simp only [jsOrQ0]
    rw [if_neg (div_ne_zero hq (by norm_num)), div_div_eq_mul_div]

/-- Witness for C9 (amended) at the concrete half-minute window. -/
theorem pauseFrequency_formula_witness :
    ((halfMinuteWindow.getLast halfMinuteWindow_ne).timestamp -
        (halfMinuteWindow.head halfMinuteWindow_ne).timestamp ≠ 0) ∧
    (cognitiveEngine.calculateBehaviorMetrics halfMinuteWindow
        halfMinuteWindow_ne).pauseFrequency =
      ((cognitiveEngine.calculateBehaviorMetrics halfMinuteWindow
          halfMinuteWindow_ne).pauseCount : ℚ) * 60000 /
        (((halfMinuteWindow.getLast halfMinuteWindow_ne).timestamp -
            (halfMinuteWindow.head halfMinuteWindow_ne).timestamp : Int) : ℚ) :=
  ⟨by decide, (pauseFrequency_formula halfMinuteWindow halfMinuteWindow_ne).2 (by decide)⟩

theorem updateSessionContext_events (s : Session) (ct ps : Option ℚ)
    (sec : Option String) :
    (dataStore.updateSessionContext s ct ps sec).events = s.events := by
  simp only [dataStore.updateSessionContext]
  cases ct <;> cases ps <;> cases sec <;> rfl

theorem foldl_addEvent_events (l : List Event) (s : Session)
    (h1 : s.events.length ≤ 100) (h2 : s.cognitiveStates.length ≤ 20) :
    (l.foldl dataStore.addEvent s).events = lastN 100 (s.events ++ l) := by
  have hmain := (runOps_logs (l.map StoreOp.addEvent) s h1 h2).1
  have hrun : runOps s (l.map StoreOp.addEvent) = l.foldl dataStore.addEvent s := by
    rw [runOps, List.foldl_map]
    rfl
  have hev : eventsOf (l.map StoreOp.addEvent) = l := by
    rw [eventsOf, List.filterMap_map]
    exact List.filterMap_some l
  rw [hrun, hev] at hmain
  exact hmain

/-- C7 (amended): on a valid non-empty batch, the monolith controller
appends every processed event in input order (the final event log is the
100-suffix of the old log plus the processed events), processes one event
per batch element, and hands exactly one event — the last one — to the
inference pass; the event-service batch route appends the same way but
hands every processed event to the inference pass, one per element. -/
theorem ingestBatch_single_inference (sessionId : String) (events : List RawEvent)
    (h : events ≠ []) (ids : ℕ → String) (now : Int) (session : Session)
    (h100 : session.events.length ≤ 100) (h20 : session.cognitiveStates.length ≤ 20) :
    (eventController.batch sessionId events ids now session).1.events =
      lastN 100 (session.events ++
        (eventController.batch sessionId events ids now session).2.1) ∧
    (eventController.batch sessionId events ids now session).2.1.length = events.length ∧
    (eventController.batch sessionId events ids now session).2.2 =
      (eventController.batch sessionId events ids now session).2.1.getLast?.toList ∧
    (eventController.batch sessionId events ids now session).2.2.length = 1 ∧
    (eventService.batch sessionId events ids now session).1.events =
      lastN 100 (session.events ++
        (eventService.batch sessionId events ids now session).2.1) ∧
    (eventService.batch sessionId events ids now session).2.2 =
      (eventService.batch sessionId events ids now session).2.1 ∧
    (eventService.batch sessionId events ids now session).2.2.length = events.length := by
  have hlenC :
      (eventController.batch sessionId events ids now session).2.1.length = events.length := by
    show (events.enum.map _).length = events.length
    rw [List.length_map, List.enum_length]
  have hneC : (eventController.batch sessionId events ids now session).2.1 ≠ [] := by
    intro hx
    apply h
    apply List.length_eq_zero.mp
    rw [← hlenC, hx]
    rfl
  have hlast := List.getLast?_eq_getLast _ hneC
  refine ⟨?_, hlenC, ?_, ?_, ?_, rfl, ?_⟩
  · exact foldl_addEvent_events _ session h100 h20
  · show (match (eventController.batch sessionId events ids now session).2.1.getLast? with
      | some e => [e] | none => []) = _
    rw [hlast]
    rfl
  · show (match (eventController.batch sessionId events ids now session).2.1.getLast? with
      | some e => [e] | none => []).length = 1
    rw [hlast]
    rfl
  · exact foldl_addEvent_events _ session h100 h20
  · show (events.enum.map _).length = events.length
    rw [List.length_map, List.enum_length]

/-- C7 (counterexample): submitting the two-event batch `batch2` to the
event-service batch route triggers an inference pass per event — two passes,
not the single pass the claim requires of every batch endpoint. -/
theorem batch_eventService_inference_per_event :
    (eventService.batch "s1" batch2 (fun _ => "e") 0
        (dataStore.newSession "s1" none 0)).2.2.length = 2 ∧
    (eventService.batch "s1" batch2 (fun _ => "e") 0
        (dataStore.newSession "s1" none 0)).2.2.length ≠ 1 := by
  constructor <;> decide

/-- Witness for C7 (amended) at the concrete two-event batch. -/
theorem ingestBatch_single_inference_witness :
    (eventController.batch "s1" batch2 (fun _ => "e") 0
        (dataStore.newSession "s1" none 0)).2.2.length = 1 ∧
    (eventService.batch "s1" batch2 (fun _ => "e") 0
        (dataStore.newSession "s1" none 0)).2.2.length = 2 := by
  have hmain := ingestBatch_single_inference "s1" batch2 (by decide) (fun _ => "e") 0
    (dataStore.newSession "s1" none 0) (by simp [dataStore.newSession])
    (by simp [dataStore.newSession])
  refine ⟨hmain.2.2.2.1, ?_⟩
  rw [hmain.2.2.2.2.2.2]
  rfl

/-- C8 (amended): the ingest route returns the `Missing required fields`
rejection, and leaves the event log untouched, exactly when `sessionId` or
`eventType` is missing or empty; any truthy `eventType` — recognized tag or
not — is accepted and its event is appended to the session's event log. -/
theorem ingest_validation (sessionId eventType : Option String)
    (metadata : Option Metadata) (session : Session) (eventId : String) (now : Int) :
    (eventController.ingest sessionId eventType metadata session eventId now).isRejected =
      (!truthy sessionId || !truthy eventType) ∧
    (eventController.ingest sessionId eventType metadata session eventId now).session.events =
      (if (!truthy sessionId || !truthy eventType) = true then session.events
       else lastN 100 (session.events ++
        [{ eventId := eventId, sessionId := sessionId.getD "",
           eventType := eventType.getD "", timestamp := now,
           metadata := metadata.getD Metadata.empty, userId := none }])) := by
  by_cases hc : (!truthy sessionId || !truthy eventType) = true
  · constructor
    · unfold eventController.ingest
      rw [if_pos hc, hc]
      rfl
    · unfold eventController.ingest
      rw [if_pos hc, if_pos hc]
      rfl
  · have hc' : (!truthy sessionId || !truthy eventType) = false :=
      Bool.eq_false_iff.mpr hc
    constructor
    · unfold eventController.ingest
      rw [if_neg hc, hc']
      cases metadata with
      | none => rfl
      | some md =>
        show (IngestOutcome.ok _ _).isRejected = false
        rfl
    · unfold eventController.ingest
      rw [if_neg hc, if_neg hc]
      cases metadata with
      | none =>
        dsimp only [IngestOutcome.session]
        rw [addEvent_events]
      | some md =>
        dsimp only [IngestOutcome.session]
        by_cases hctx : md.currentTime ≠ none ∨ md.speed ≠ none ∨ md.sectionId ≠ none
        · rw [if_pos hctx, updateSessionContext_events, addEvent_events]
        · rw [if_neg hctx, addEvent_events]

/-- C8 (counterexample): `BOGUS_EVENT` is not one of the behavioral tags the
engine recognizes, yet the ingest route does not reject the request — the
event is appended to the session's event log, refuting the claim that an
unrecognized `eventType` fails with `InvalidEvent` and appends nothing. -/
theorem ingest_accepts_unrecognized_eventType :
    jsToUpper "BOGUS_EVENT" ∉ cognitiveEngine.recognizedTags ∧
    bogusOutcome.isRejected = false ∧
    bogusOutcome.session.events.length = 1 ∧
    bogusOutcome.session.events.map Event.eventType = ["BOGUS_EVENT"] := by
  refine ⟨by decide, by decide, by decide, by decide⟩
